import Mathlib

/-!
Verification of the PulseEcho heart-sound screening backend.

Shallow embedding of the classification-result resolution pipeline:
`core/ml_client.py` (classifier selection, remote fallback, mock analysis,
result normalization), the `/analyze` handler in `app.py` (validation,
persistence hand-off, conditional SMS alert), `core/database.py`
(`save_screening_result`) and `ml_model/model_loader.py`
(`HeartSoundModel._mock_prediction`).

Conventions: Python dicts with a fixed key set become structures whose
`Option` fields model a missing key (or a key present with value `None`,
noted where the difference matters); floats become rationals; the sources
of randomness (`random.choice`, `random.uniform`) and the outcomes of
external calls (HTTP response, Supabase insert, SMS delivery) are explicit
parameters; a Python exception becomes `Except.error`.
-/

/-- Python `d.get(key, default)` on a string-keyed dict literal, as an
association-list lookup (all dict literals in the source have distinct keys,
so order is irrelevant). -/
def dict_get : List (String × String) → String → String → String
  | [], _, default => default
  | (k, v) :: rest, key, default => if key = k then v else dict_get rest key default

/-- Python 3 `round` to an integer: round half to even. -/
def pyRoundInt (q : ℚ) : ℤ :=
  if q - (⌊q⌋ : ℚ) < 1/2 then ⌊q⌋
  else if 1/2 < q - (⌊q⌋ : ℚ) then ⌊q⌋ + 1
  else if ⌊q⌋ % 2 = 0 then ⌊q⌋ else ⌊q⌋ + 1

/-- Python `round(q, n)`. -/
def pyRound (q : ℚ) (n : ℕ) : ℚ :=
  (pyRoundInt (q * 10 ^ n) : ℚ) / 10 ^ n

/-- Truthiness of an optional string (Python: a missing value `None` and the
empty string are both falsy). -/
def strTruthy : Option String → Bool
  | none => false
  | some s => s != ""

/-- The patient-context dict built by the handlers in `app.py`. A field is
`none` when the key is present with Python value `None`; `phone` is `none`
when the dict has no `phone` key at all or it is `None`. This structure
stands for a non-empty dict (both call sites build one), so its Python
truthiness is true. -/
structure PatientContext where
  patient_id : String := ""
  name : String := ""
  age : Option Int := none
  gender : String := ""
  doctor_id : String := ""
  symptoms : String := ""
  phone : Option String := none
deriving DecidableEq

/-- The JSON-style result dict assembled by `MLClient` and the `/analyze`
handler; a field is `none` when the dict has no such key. -/
structure ResultDict where
  prediction : Option String := none
  confidence : Option ℚ := none
  risk_level : Option String := none
  recommendation : Option String := none
  analysis_note : Option String := none
  probabilities : Option (List ℚ) := none
  class_names : Option (List String) := none
  ml_source : Option String := none
  model_info : Option String := none
  note : Option String := none
  sms_sent : Option Bool := none
  screening_id : Option String := none
  audio_file : Option String := none
deriving DecidableEq

/-- The dict returned by `HeartSoundModel.predict_from_audio` or
`HeartSoundModel._mock_prediction` (only the keys `MLClient` reads). -/
structure LocalMLResult where
  prediction : String
  confidence : ℚ
  probabilities : Option (List ℚ) := none
  class_names : Option (List String) := none
deriving DecidableEq

/-- Python `str.lower()` (ASCII letters, which is all the source compares).
This is exactly `String.toLower`, stated at the character-list level so that
the kernel can evaluate it on literals; `pyLower_eq_toLower` below proves
the two equal. -/
def pyLower (s : String) : String := ⟨s.data.map Char.toLower⟩

/-- The `risk_mapping` dict literal in `MLClient._format_local_ml_result`. -/
def risk_mapping_local : List (String × String) :=
  [("normal", "low"), ("Normal", "low"), ("abnormal", "high"),
   ("Abnormal", "high"), ("murmur", "medium"), ("Murmur", "medium")]

/-- Line 109 of `core/ml_client.py`:
`risk_mapping.get(prediction.lower(), 'medium')`. -/
def risk_level_local (prediction : String) : String :=
  dict_get risk_mapping_local (pyLower prediction) "medium"

/-- The `recommendations` dict literal in `MLClient._format_local_ml_result`. -/
def recommendations_local : List (String × String) :=
  [("high", "Urgent consultation with cardiologist recommended. Avoid strenuous activity and seek immediate medical attention if symptoms worsen."),
   ("medium", "Schedule a follow-up with healthcare provider. Monitor for symptoms like chest pain, shortness of breath, or fatigue."),
   ("low", "Regular check-up advised. Maintain healthy lifestyle with balanced diet and regular exercise.")]

/-- The note text appended on the age-dependent branch of
`MLClient._format_local_ml_result`. -/
def over50Note : String := "Patient is over 50, increased cardiovascular risk factors."

/-- Tag for the `TypeError` Python raises when `age > 50` is evaluated with
`age = None` (the dict key `age` is present with value `None`, so
`patient_context.get('age', 0)` does not substitute the default `0`). -/
def ageTypeError : String :=
  "TypeError: unsupported comparison between NoneType and int"

/-- The function `MLClient._format_local_ml_result`. It raises a `TypeError`
when the context dict is truthy (present and non-empty) but its `age` value
is `None`, because `age > 50` is evaluated before the result dict is built.
`model_info` stands for the opaque `self.local_model.get_model_info()`
payload. -/
def format_local_ml_result (ml_result : LocalMLResult)
    (patient_context : Option PatientContext) (model_info : String) :
    Except String ResultDict :=
  let prediction := ml_result.prediction
  let confidence := ml_result.confidence
  let risk_level := risk_level_local prediction
  let base : ResultDict :=
    { prediction := some prediction
      confidence := some (pyRound confidence 4)
      risk_level := some risk_level
      recommendation := some (dict_get recommendations_local risk_level "")
      analysis_note := some ""
      probabilities := some (ml_result.probabilities.getD [])
      class_names := some (ml_result.class_names.getD ["normal", "abnormal"])
      ml_source := some "local_cnn_model"
      model_info := some model_info }
  match patient_context with
  | none => .ok base
  | some ctx =>
    match ctx.age with
    | none => .error ageTypeError
    | some age =>
      if 50 < age ∧ risk_level ≠ "low" then
        .ok { base with analysis_note := some over50Note }
      else
        .ok base

/-- The fixed `predictions` list in `MLClient._mock_analysis`. -/
def mock_predictions : List String := ["normal", "abnormal", "murmur"]

/-- The `risk_mapping` dict literal in `MLClient._mock_analysis` (looked up
with the raw drawn prediction, no lowercasing). -/
def risk_mapping_mock : List (String × String) :=
  [("normal", "low"), ("abnormal", "high"), ("murmur", "medium")]

/-- Line 159 of `core/ml_client.py`: `risk_mapping.get(prediction, 'medium')`. -/
def risk_level_mock (prediction : String) : String :=
  dict_get risk_mapping_mock prediction "medium"

/-- The `recommendations` dict literal in `MLClient._mock_analysis`. -/
def recommendations_mock : List (String × String) :=
  [("high", "Urgent consultation with cardiologist recommended."),
   ("medium", "Follow-up with healthcare provider advised."),
   ("low", "Regular check-up advised.")]

/-- The randomness drawn by a mock prediction: `random.choice` as an index
into the label list and `random.uniform(lo, hi)` as a rational draw (the
range constraint is carried as a hypothesis where it matters). -/
structure MockDraw where
  choice : Fin 3
  uniform : ℚ
deriving DecidableEq

/-- The function `MLClient._mock_analysis`. The patient context argument is
accepted but never read by the Python body. -/
def mock_analysis (draw : MockDraw) (_patient_context : Option PatientContext) :
    ResultDict :=
  let prediction := mock_predictions.get ⟨draw.choice.val, draw.choice.isLt⟩
  let confidence := pyRound draw.uniform 3
  let risk_level := risk_level_mock prediction
  { prediction := some prediction
    confidence := some confidence
    risk_level := some risk_level
    recommendation := some (dict_get recommendations_mock risk_level "")
    ml_source := some "mock"
    note := some "Using mock analysis - ML model not available" }

/-- Outcome of the HTTP POST in `MLClient._call_external_ml_api`: either a
response with a status code and a parsed JSON body, or an exception
(timeout, transport error, unreadable audio path, malformed JSON). -/
inductive RemoteOutcome where
  | response (status : Nat) (body : ResultDict)
  | exception (msg : String)
deriving DecidableEq

/-- The function `MLClient._call_external_ml_api`: HTTP 200 returns the parsed
body; any other status and any exception fall back to `_mock_analysis` for
this request. -/
def call_external_ml_api (outcome : RemoteOutcome) (draw : MockDraw)
    (patient_context : Option PatientContext) : ResultDict :=
  match outcome with
  | .response status body =>
      if status == 200 then body else mock_analysis draw patient_context
  | .exception _ => mock_analysis draw patient_context

/-- Process-wide `MLClient` state fixed by `MLClient.__init__`.
`local_model` is true when `self.local_model is not None`. -/
structure MLClient where
  use_real_ml : Bool
  ml_api_url : String
  local_model : Bool
deriving DecidableEq

/-- The constructor `MLClient.__init__`: `USE_REAL_ML` is the raw env string
compared case-insensitively against `true`; `ml_api_url` is the `ML_API_URL`
env value (empty string when unset). The local model is only constructed
when the remote flag is off, the `HeartSoundModel` import succeeded
(`has_local_model`), and its constructor did not raise (`load_ok`). -/
def MLClient.init (env_use_real_ml : String) (ml_api_url : String)
    (has_local_model : Bool) (load_ok : Bool) : MLClient :=
  let use_real_ml := pyLower env_use_real_ml == "true"
  { use_real_ml := use_real_ml
    ml_api_url := ml_api_url
    local_model := !use_real_ml && has_local_model && load_ok }

/-- The method `MLClient.analyze_heart_sound`: remote API when `use_real_ml`
and a URL is configured (non-empty, Python truthiness); otherwise the local
model when loaded, with a falsy prediction (`local_prediction = none`)
falling back to mock; otherwise mock. `draw` is the randomness a mock
fallback would consume, `model_info` the serialized model-info payload. -/
def analyze_heart_sound (c : MLClient) (remote : RemoteOutcome)
    (local_prediction : Option LocalMLResult) (draw : MockDraw)
    (patient_context : Option PatientContext) (model_info : String) :
    Except String ResultDict :=
  if c.use_real_ml && (c.ml_api_url != "") then
    .ok (call_external_ml_api remote draw patient_context)
  else if c.local_model then
    match local_prediction with
    | some r => format_local_ml_result r patient_context model_info
    | none => .ok (mock_analysis draw patient_context)
  else
    .ok (mock_analysis draw patient_context)

/-- The function `HeartSoundModel._mock_prediction` in
`ml_model/model_loader.py`: label drawn from the configured class list,
confidence from `uniform(0.7, 0.95)` rounded to 3 places (the range
constraint on `uniform` is carried as a hypothesis where it matters). -/
def model_mock_prediction (class_names : List String)
    (choice : Fin class_names.length) (uniform : ℚ) : LocalMLResult :=
  { prediction := class_names.get choice
    confidence := pyRound uniform 3
    probabilities := some (if class_names.length == 2 then [1/2, 1/2] else [3/10, 7/10])
    class_names := some class_names }

/-- The `ALLOWED_EXTENSIONS` set in `app.py`. -/
def ALLOWED_EXTENSIONS : List String := ["wav", "mp3", "m4a"]

/-- The function `allowed_file` in `app.py`: the filename must contain a dot
and the piece after the last dot (Python `filename.rsplit('.', 1)[1]`, here
computed as the reversed longest dot-free suffix), lowercased, must be an
allowed extension. -/
def allowed_file (filename : String) : Bool :=
  filename.data.contains '.' &&
    ALLOWED_EXTENSIONS.contains
      (pyLower ⟨(filename.data.reverse.takeWhile (fun c => c != '.')).reverse⟩)

/-- The uploaded file behind `request.files['audio']`. -/
structure UploadedFile where
  filename : String
deriving DecidableEq

/-- The multipart form of a POST to `/analyze`. String fields model
`request.form.get(key, '')`; `age` models `request.form.get('age', type=int)`
and is `none` when the field is absent or unparsable. A `phone` form field
may be submitted (`phone_field`) but the handler never reads it. -/
structure AnalyzeRequest where
  audio : Option UploadedFile := none
  patient_id : String := ""
  patient_name : String := ""
  age : Option Int := none
  gender : String := ""
  doctor_id : String := ""
  symptoms : String := ""
  phone_field : Option String := none
deriving DecidableEq

/-- The `patient_context` dict built at lines 136-143 of `app.py`: exactly the
six keys below, never a `phone` key, whatever the submitted form held. -/
def build_patient_context (req : AnalyzeRequest) : PatientContext :=
  { patient_id := req.patient_id
    name := req.patient_name
    age := req.age
    gender := req.gender
    doctor_id := req.doctor_id
    symptoms := req.symptoms
    phone := none }

/-- Return value of `save_screening_result` (the keys the handler reads:
`success` and an `id` that is absent from the failure dicts). -/
structure DbResult where
  success : Bool
  id : Option String
deriving DecidableEq

/-- What the Supabase insert call did. -/
inductive InsertOutcome where
  | inserted (id : String)
  | noData
  | exception (msg : String)
deriving DecidableEq

/-- The function `save_screening_result` in `core/database.py`: a mock success
carrying id `mock_id` when Supabase is not connected; on a successful insert
the new row id; a response without data or an exception produces a failure
dict that carries no `id` key. -/
def save_screening_result (connected : Bool) (outcome : InsertOutcome) : DbResult :=
  if !connected then { success := true, id := some "mock_id" }
  else
    match outcome with
    | .inserted id => { success := true, id := some id }
    | .noData => { success := false, id := none }
    | .exception _ => { success := false, id := none }

/-- Lines 169-174 of `app.py`: dispatch one SMS alert exactly when
`ml_result.get('risk_level') == 'high'` and `patient_context.get('phone')` is
truthy, recording delivery success in `sms_sent`. Returns the updated dict
and the number of dispatch attempts made. -/
def alert_step (ml_result : ResultDict) (ctx : PatientContext)
    (sms_success : Bool) : ResultDict × Nat :=
  if ml_result.risk_level == some "high" && strTruthy ctx.phone then
    ({ ml_result with sms_sent := some sms_success }, 1)
  else
    (ml_result, 0)

/-- Side effects of one `/analyze` request. -/
structure Effects where
  file_saved : Bool
  ml_invoked : Bool
  db_invoked : Bool
  sms_attempts : Nat
deriving DecidableEq

/-- No side effect was performed. -/
def noEffects : Effects :=
  { file_saved := false, ml_invoked := false, db_invoked := false, sms_attempts := 0 }

/-- HTTP-level outcome of the `/analyze` handler. -/
inductive HandlerOutput where
  | clientError (msg : String)
  | serverError (msg : String)
  | ok (body : ResultDict)
deriving DecidableEq

/-- The `/analyze` handler `analyze_heart_sound` in `app.py`: audio
validation, file save, classification, persistence hand-off, conditional
SMS alert, response assembly; an exception escaping the pipeline is caught
by the surrounding `try` and surfaced as HTTP 500. `db` is what
`save_screening_result` returned, `unique_filename` the generated stored
name. -/
def analyze_endpoint (req : AnalyzeRequest) (c : MLClient)
    (remote : RemoteOutcome) (local_prediction : Option LocalMLResult)
    (draw : MockDraw) (db : DbResult) (sms_success : Bool)
    (unique_filename : String) (model_info : String) :
    HandlerOutput × Effects :=
  match req.audio with
  | none => (.clientError "No audio file provided", noEffects)
  | some audio_file =>
    if audio_file.filename == "" then
      (.clientError "No selected file", noEffects)
    else if !allowed_file audio_file.filename then
      (.clientError "File type not allowed. Use WAV, MP3, or M4A", noEffects)
    else
      let ctx := build_patient_context req
      match analyze_heart_sound c remote local_prediction draw (some ctx) model_info with
      | .error e =>
          (.serverError e,
           { file_saved := true, ml_invoked := true, db_invoked := false, sms_attempts := 0 })
      | .ok ml_result =>
          let with_sms := (alert_step ml_result ctx sms_success).1
          let attempts := (alert_step ml_result ctx sms_success).2
          let body : ResultDict :=
            { with_sms with
              screening_id := some (db.id.getD "")
              audio_file := some unique_filename }
          (.ok body,
           { file_saved := true, ml_invoked := true, db_invoked := true, sms_attempts := attempts })

/-! ## Helper lemmas -/

theorem pyLower_eq_toLower (s : String) : pyLower s = s.toLower :=
  (String.map_eq _ _).symm

theorem char_toLower_notUpper (c : Char) :
    ¬(65 ≤ (Char.toLower c).toNat ∧ (Char.toLower c).toNat ≤ 90) := by
  intro hc
  simp only [Char.toLower] at hc
  split at hc
  case isTrue h =>
    obtain ⟨n, hn⟩ : ∃ n, c.toNat = n := ⟨_, rfl⟩
    rw [hn] at hc h
    obtain ⟨h1, h2⟩ := h
    interval_cases n <;> revert hc <;> decide
  case isFalse h =>
    exact h ⟨hc.1, hc.2⟩

theorem pyLower_data_notUpper (s : String) :
    ∀ c ∈ (pyLower s).data, ¬(65 ≤ c.toNat ∧ c.toNat ≤ 90) := by
  intro c hc
  obtain ⟨a, _, rfl⟩ := List.mem_map.mp hc
  exact char_toLower_notUpper a

theorem pyLower_ne_upper (s t : String) (c : Char) (hmem : c ∈ t.data)
    (hc : 65 ≤ c.toNat ∧ c.toNat ≤ 90) : pyLower s ≠ t := by
  intro h
  exact pyLower_data_notUpper s c (h ▸ hmem) hc

theorem risk_level_local_eq (label : String) :
    risk_level_local label =
      if pyLower label = "normal" then "low"
      else if pyLower label = "abnormal" then "high"
      else if pyLower label = "murmur" then "medium"
      else "medium" := by
  have hN : pyLower label ≠ "Normal" :=
    pyLower_ne_upper label "Normal" 'N' (by decide) (by decide)
  have hA : pyLower label ≠ "Abnormal" :=
    pyLower_ne_upper label "Abnormal" 'A' (by decide) (by decide)
  have hM : pyLower label ≠ "Murmur" :=
    pyLower_ne_upper label "Murmur" 'M' (by decide) (by decide)
  simp only [risk_level_local, risk_mapping_local, dict_get]
  split_ifs <;> simp_all

theorem pyRoundInt_mem (q : ℚ) : pyRoundInt q = ⌊q⌋ ∨ pyRoundInt q = ⌊q⌋ + 1 := by
  unfold pyRoundInt
  split_ifs <;> simp

theorem pyRoundInt_bounds (q : ℚ) (lo hi : ℤ) (hlo : (lo : ℚ) ≤ q) (hhi : q ≤ (hi : ℚ)) :
    lo ≤ pyRoundInt q ∧ pyRoundInt q ≤ hi := by
  have hfl : lo ≤ ⌊q⌋ := Int.le_floor.mpr hlo
  have hmem := pyRoundInt_mem q
  constructor
  · rcases hmem with h | h <;> omega
  · by_cases hq : q < (hi : ℚ)
    · have hlt : ⌊q⌋ < hi := Int.floor_lt.mpr hq
      rcases hmem with h | h <;> omega
    · have hq' : q = (hi : ℚ) := le_antisymm hhi (not_lt.mp hq)
      have hz : pyRoundInt q = hi := by
        unfold pyRoundInt
        rw [hq']
        norm_num
      omega

theorem pyRound_bounds (n : ℕ) (q : ℚ) (lo hi : ℤ)
    (hlo : (lo : ℚ) ≤ q * 10 ^ n) (hhi : q * 10 ^ n ≤ (hi : ℚ)) :
    (lo : ℚ) / 10 ^ n ≤ pyRound q n ∧ pyRound q n ≤ (hi : ℚ) / 10 ^ n := by
  obtain ⟨a, b⟩ := pyRoundInt_bounds (q * 10 ^ n) lo hi hlo hhi
  unfold pyRound
  constructor
  · exact (div_le_div_iff_of_pos_right (by positivity)).mpr (by exact_mod_cast a)
  · exact (div_le_div_iff_of_pos_right (by positivity)).mpr (by exact_mod_cast b)

theorem pyRound3_range_mock (q : ℚ) (h1 : 3/5 ≤ q) (h2 : q ≤ 19/20) :
    3/5 ≤ pyRound q 3 ∧ pyRound q 3 ≤ 19/20 := by
  have h := pyRound_bounds 3 q 600 950 (by push_cast; linarith) (by push_cast; linarith)
  constructor <;> [linarith [h.1]; linarith [h.2]]

theorem pyRound3_range_model (q : ℚ) (h1 : 7/10 ≤ q) (h2 : q ≤ 19/20) :
    7/10 ≤ pyRound q 3 ∧ pyRound q 3 ≤ 19/20 := by
  have h := pyRound_bounds 3 q 700 950 (by push_cast; linarith) (by push_cast; linarith)
  constructor <;> [linarith [h.1]; linarith [h.2]]

/-! ## Claims -/

/-- C1: for every classification label, the risk tier assigned by result
normalization follows the fixed, case-insensitive mapping: `normal` gives
`low`, `abnormal` gives `high`, `murmur` gives `medium`, every label whose
lowercasing is not in the mapping table gives `medium`, and `low` is
produced only for (case variants of) `normal`; the mock variant agrees with
the table on its three possible labels. -/
theorem claim1 (label : String) :
    (pyLower label = "normal" → risk_level_local label = "low") ∧
    (pyLower label = "abnormal" → risk_level_local label = "high") ∧
    (pyLower label = "murmur" → risk_level_local label = "medium") ∧
    (pyLower label ∉ ["normal", "abnormal", "murmur"] →
      risk_level_local label = "medium") ∧
    (risk_level_local label = "low" → pyLower label = "normal") ∧
    risk_level_mock "normal" = "low" ∧
    risk_level_mock "abnormal" = "high" ∧
    risk_level_mock "murmur" = "medium" := by
  have he := risk_level_local_eq label
  refine ⟨?_, ?_, ?_, ?_, ?_, by decide, by decide, by decide⟩
  · intro h
    rw [he, if_pos h]
  · intro h
    rw [he]
    have hne : pyLower label ≠ "normal" := by rw [h]; decide
    rw [if_neg hne, if_pos h]
  · intro h
    rw [he]
    have hn : pyLower label ≠ "normal" := by rw [h]; decide
    have ha : pyLower label ≠ "abnormal" := by rw [h]; decide
    rw [if_neg hn, if_neg ha, if_pos h]
  · intro h
    simp only [List.mem_cons, List.not_mem_nil, or_false, not_or] at h
    obtain ⟨hn, ha, hm⟩ := h
    rw [he, if_neg hn, if_neg ha, if_neg hm]
  · intro h
    rw [he] at h
    split_ifs at h with h1 h2 h3 <;> simp_all

/-- C1 witness: a label outside the mapping table normalizes to `medium`. -/
theorem claim1_witness : risk_level_local "extrasystole" = "medium" :=
  (claim1 "extrasystole").2.2.2.1 (by decide)

/-- C5: every mock-variant result carries a label from the fixed list
`{normal, abnormal, murmur}`, a confidence inside [0.6, 0.95] (given the
uniform draw from that interval), and provenance `mock`; the model-side mock
fallback keeps its confidence inside [0.7, 0.95]. -/
theorem claim5 (draw : MockDraw) (ctx : Option PatientContext)
    (h1 : 3/5 ≤ draw.uniform) (h2 : draw.uniform ≤ 19/20) :
    (∃ p, (mock_analysis draw ctx).prediction = some p ∧ p ∈ mock_predictions) ∧
    (∃ q, (mock_analysis draw ctx).confidence = some q ∧ 3/5 ≤ q ∧ q ≤ 19/20) ∧
    (mock_analysis draw ctx).ml_source = some "mock" ∧
    (∀ (cls : List String) (i : Fin cls.length) (u : ℚ), 7/10 ≤ u → u ≤ 19/20 →
      7/10 ≤ (model_mock_prediction cls i u).confidence ∧
        (model_mock_prediction cls i u).confidence ≤ 19/20) := by
  refine ⟨⟨_, rfl, List.get_mem _ _ _⟩, ⟨_, rfl, ?_⟩, rfl, ?_⟩
  · exact pyRound3_range_mock draw.uniform h1 h2
  · intro cls i u hu1 hu2
    exact pyRound3_range_model u hu1 hu2

/-- C5 witness at a concrete draw. -/
theorem claim5_witness : (mock_analysis ⟨0, 7/10⟩ none).ml_source = some "mock" :=
  (claim5 ⟨0, 7/10⟩ none (by norm_num) (by norm_num)).2.2.1

/-- C3: whenever the remote variant is selected and its call fails (any
non-200 status, or an exception covering timeouts and transport errors), the
classifier returns exactly the mock result for this request, as a successful
value (no error surfaces), and that result is a complete outcome: provenance
`mock` plus present label, confidence, risk level and recommendation. -/
theorem claim3 (c : MLClient) (remote : RemoteOutcome)
    (lp : Option LocalMLResult) (draw : MockDraw) (ctx : Option PatientContext)
    (mi : String) (hu : c.use_real_ml = true) (hurl : c.ml_api_url ≠ "")
    (hfail : ∀ body, remote ≠ RemoteOutcome.response 200 body) :
    analyze_heart_sound c remote lp draw ctx mi = .ok (mock_analysis draw ctx) ∧
    (mock_analysis draw ctx).ml_source = some "mock" ∧
    (∃ p, (mock_analysis draw ctx).prediction = some p) ∧
    (∃ q, (mock_analysis draw ctx).confidence = some q) ∧
    (∃ r, (mock_analysis draw ctx).risk_level = some r) ∧
    (∃ s, (mock_analysis draw ctx).recommendation = some s) := by
  refine ⟨?_, rfl, ⟨_, rfl⟩, ⟨_, rfl⟩, ⟨_, rfl⟩, ⟨_, rfl⟩⟩
  have hcond : (c.use_real_ml && (c.ml_api_url != "")) = true := by
    rw [hu]
    simpa using hurl
  unfold analyze_heart_sound
  rw [hcond]
  simp only [if_true]
  cases remote with
  | response status body =>
    by_cases hst : status = 200
    · subst hst
      exact absurd rfl (hfail body)
    · simp [call_external_ml_api, hst]
  | exception m => rfl

/-- C3 witness: a 500 response degrades to the mock result. -/
theorem claim3_witness :
    analyze_heart_sound ⟨true, "http://ml.example/api", false⟩
      (RemoteOutcome.response 500 {}) none ⟨0, 4/5⟩ none "" =
      .ok (mock_analysis ⟨0, 4/5⟩ none) :=
  (claim3 ⟨true, "http://ml.example/api", false⟩ (RemoteOutcome.response 500 {})
    none ⟨0, 4/5⟩ none "" rfl (by decide)
    (fun body h => by injection h with h1 _; exact absurd h1 (by decide))).1

/-- C2: the classifier implementation for a request follows the ordered
policy fixed at startup: remote when the use-remote flag is on and a URL is
configured; else the local model exactly when it loaded successfully at
startup (flag off, import succeeded, constructor succeeded), with an empty
local prediction falling back to mock; else mock. -/
theorem claim2 (env url : String) (has_model load_ok : Bool)
    (remote : RemoteOutcome) (lp : Option LocalMLResult) (draw : MockDraw)
    (ctx : Option PatientContext) (mi : String) :
    ((MLClient.init env url has_model load_ok).local_model = true ↔
      ((MLClient.init env url has_model load_ok).use_real_ml = false ∧
        has_model = true ∧ load_ok = true)) ∧
    ((MLClient.init env url has_model load_ok).use_real_ml = true → url ≠ "" →
      analyze_heart_sound (MLClient.init env url has_model load_ok) remote lp draw ctx mi =
        .ok (call_external_ml_api remote draw ctx)) ∧
    (((MLClient.init env url has_model load_ok).use_real_ml = false ∨ url = "") →
      (MLClient.init env url has_model load_ok).local_model = true →
      analyze_heart_sound (MLClient.init env url has_model load_ok) remote lp draw ctx mi =
        (match lp with
         | some r => format_local_ml_result r ctx mi
         | none => .ok (mock_analysis draw ctx))) ∧
    (((MLClient.init env url has_model load_ok).use_real_ml = false ∨ url = "") →
      (MLClient.init env url has_model load_ok).local_model = false →
      analyze_heart_sound (MLClient.init env url has_model load_ok) remote lp draw ctx mi =
        .ok (mock_analysis draw ctx)) := by
  refine ⟨?_, ?_, ?_, ?_⟩
  · simp [MLClient.init, Bool.and_eq_true, Bool.not_eq_true']
    tauto
  · intro hu hurl
    have hcond : ((MLClient.init env url has_model load_ok).use_real_ml &&
        ((MLClient.init env url has_model load_ok).ml_api_url != "")) = true := by
      rw [hu]
      simpa using hurl
    unfold analyze_heart_sound
    rw [hcond]
    simp
  · intro hor hloc
    have hcond : ((MLClient.init env url has_model load_ok).use_real_ml &&
        ((MLClient.init env url has_model load_ok).ml_api_url != "")) = false := by
      rcases hor with h | h
      · rw [h, Bool.false_and]
      · show (_ && (url != "")) = false
        rw [h]
        simp
    unfold analyze_heart_sound
    rw [hcond, hloc]
    simp
  · intro hor hloc
    have hcond : ((MLClient.init env url has_model load_ok).use_real_ml &&
        ((MLClient.init env url has_model load_ok).ml_api_url != "")) = false := by
      rcases hor with h | h
      · rw [h, Bool.false_and]
      · show (_ && (url != "")) = false
        rw [h]
        simp
    unfold analyze_heart_sound
    rw [hcond, hloc]
    simp

/-- C2 witness: with the remote flag on and a URL configured, the remote
variant is attempted. -/
theorem claim2_witness :
    analyze_heart_sound (MLClient.init "TRUE" "http://ml.example/api" false false)
      (RemoteOutcome.response 200 {}) none ⟨0, 4/5⟩ none "" =
      .ok (call_external_ml_api (RemoteOutcome.response 200 {}) ⟨0, 4/5⟩ none) :=
  (claim2 "TRUE" "http://ml.example/api" false false (RemoteOutcome.response 200 {})
    none ⟨0, 4/5⟩ none "").2.1 (by decide) (by decide)

/-- C6: on a successfully normalized result the analysis note flags increased
cardiovascular risk exactly when the context age exceeds 50 and the mapped
risk tier is not `low`; it is the empty string otherwise (also when no
context was passed); and the note is the only field of the normalized result
that depends on the context. -/
theorem claim6 (mlr : LocalMLResult) (ctx : PatientContext) (a : Int) (mi : String)
    (hage : ctx.age = some a) :
    (∃ r, format_local_ml_result mlr (some ctx) mi = .ok r ∧
      (50 < a ∧ risk_level_local mlr.prediction ≠ "low" →
        r.analysis_note = some over50Note) ∧
      (¬(50 < a ∧ risk_level_local mlr.prediction ≠ "low") →
        r.analysis_note = some "")) ∧
    (∀ r0, format_local_ml_result mlr none mi = .ok r0 →
      r0.analysis_note = some "") ∧
    (∀ (ctx2 : PatientContext) (a2 : Int) (r r2 : ResultDict), ctx2.age = some a2 →
      format_local_ml_result mlr (some ctx) mi = .ok r →
      format_local_ml_result mlr (some ctx2) mi = .ok r2 →
      r.prediction = r2.prediction ∧ r.confidence = r2.confidence ∧
      r.risk_level = r2.risk_level ∧ r.recommendation = r2.recommendation ∧
      r.probabilities = r2.probabilities ∧ r.class_names = r2.class_names ∧
      r.ml_source = r2.ml_source ∧ r.model_info = r2.model_info) := by
  refine ⟨?_, ?_, ?_⟩
  · simp only [format_local_ml_result, hage]
    split_ifs with hcond
    · exact ⟨_, rfl, fun _ => rfl, fun hn => absurd hcond hn⟩
    · exact ⟨_, rfl, fun hp => absurd hp hcond, fun _ => rfl⟩
  · intro r0 h
    simp only [format_local_ml_result] at h
    injection h with e
    subst e
    rfl
  · intro ctx2 a2 r r2 hage2 hr hr2
    simp only [format_local_ml_result, hage] at hr
    simp only [format_local_ml_result, hage2] at hr2
    split_ifs at hr hr2 <;>
      (injection hr with e1; injection hr2 with e2; subst e1; subst e2;
       exact ⟨rfl, rfl, rfl, rfl, rfl, rfl, rfl, rfl⟩)

/-- C6 witness: an abnormal outcome for a 60-year-old context carries the
over-50 note. -/
theorem claim6_witness :
    ∃ r, format_local_ml_result ⟨"abnormal", 9/10, none, none⟩
        (some { patient_id := "P001", name := "T", age := some 60, gender := "f",
                doctor_id := "D", symptoms := "", phone := some "+15551234567" })
        "mi" = .ok r ∧ r.analysis_note = some over50Note := by
  obtain ⟨r, hr, hpos, _⟩ :=
    (claim6 ⟨"abnormal", 9/10, none, none⟩
      { patient_id := "P001", name := "T", age := some 60, gender := "f",
        doctor_id := "D", symptoms := "", phone := some "+15551234567" }
      60 "mi" rfl).1
  exact ⟨r, hr, hpos (by decide)⟩

/-- C7 (divergence witness): the claim says classify never raises for inputs
the data model permits, but on the local-model path a context whose `age` is
null makes `_format_local_ml_result` evaluate `None > 50`, a Python
`TypeError` that propagates to the caller instead of degrading. -/
theorem claim7_divergence :
    analyze_heart_sound (MLClient.init "false" "" true true)
      (RemoteOutcome.exception "unreachable") (some ⟨"normal", 9/10, none, none⟩)
      ⟨0, 4/5⟩
      (some { patient_id := "P001", name := "Test Patient", age := none,
              gender := "male", doctor_id := "D1", symptoms := "", phone := none })
      "model-info" = .error ageTypeError := by
  rfl

theorem alert_step_preserves (m : ResultDict) (ctx : PatientContext) (s : Bool) :
    (alert_step m ctx s).1.prediction = m.prediction ∧
    (alert_step m ctx s).1.confidence = m.confidence ∧
    (alert_step m ctx s).1.risk_level = m.risk_level ∧
    (alert_step m ctx s).1.recommendation = m.recommendation := by
  unfold alert_step
  split_ifs <;> exact ⟨rfl, rfl, rfl, rfl⟩

theorem save_fail_id_none (connected : Bool) (oc : InsertOutcome)
    (h : (save_screening_result connected oc).success = false) :
    (save_screening_result connected oc).id = none := by
  cases connected <;> cases oc <;> simp_all [save_screening_result]

theorem format_ok_sms_none (r : LocalMLResult) (ctx : Option PatientContext)
    (mi : String) (m : ResultDict)
    (h : format_local_ml_result r ctx mi = .ok m) : m.sms_sent = none := by
  cases ctx with
  | none =>
    simp only [format_local_ml_result] at h
    injection h with e
    subst e
    rfl
  | some c =>
    simp only [format_local_ml_result] at h
    cases hage : c.age with
    | none =>
      rw [hage] at h
      dsimp only at h
      exact absurd h (by simp)
    | some a =>
      rw [hage] at h
      dsimp only at h
      split_ifs at h <;> (injection h with e; subst e; rfl)

theorem analyze_ok_sms_none (c : MLClient) (remote : RemoteOutcome)
    (lp : Option LocalMLResult) (draw : MockDraw) (ctx : Option PatientContext)
    (mi : String) (m : ResultDict)
    (hremote : ∀ st body, remote = RemoteOutcome.response st body → body.sms_sent = none)
    (h : analyze_heart_sound c remote lp draw ctx mi = .ok m) :
    m.sms_sent = none := by
  unfold analyze_heart_sound at h
  by_cases h1 : (c.use_real_ml && (c.ml_api_url != "")) = true
  · simp only [h1, if_true] at h
    cases remote with
    | response st body =>
      simp only [call_external_ml_api] at h
      by_cases hst : (st == 200) = true
      · rw [if_pos hst] at h
        injection h with e
        subst e
        exact hremote st body rfl
      · rw [if_neg hst] at h
        injection h with e
        subst e
        rfl
    | exception msg =>
      simp only [call_external_ml_api] at h
      injection h with e
      subst e
      rfl
  · simp only [Bool.not_eq_true] at h1
    simp only [h1, Bool.false_eq_true, if_false] at h
    by_cases h2 : c.local_model = true
    · simp only [h2, if_true] at h
      cases lp with
      | some r => exact format_ok_sms_none r ctx mi m h
      | none =>
        injection h with e
        subst e
        rfl
    · simp only [Bool.not_eq_true] at h2
      simp only [h2, Bool.false_eq_true, if_false] at h
      injection h with e
      subst e
      rfl

theorem analyze_endpoint_no_audio (req : AnalyzeRequest) (c : MLClient)
    (remote : RemoteOutcome) (lp : Option LocalMLResult) (draw : MockDraw)
    (db : DbResult) (s : Bool) (un mi : String) (h : req.audio = none) :
    analyze_endpoint req c remote lp draw db s un mi =
      (.clientError "No audio file provided", noEffects) := by
  unfold analyze_endpoint
  rw [h]

theorem analyze_endpoint_empty_name (req : AnalyzeRequest) (c : MLClient)
    (remote : RemoteOutcome) (lp : Option LocalMLResult) (draw : MockDraw)
    (db : DbResult) (s : Bool) (un mi : String) (f : UploadedFile)
    (h : req.audio = some f) (hname : f.filename = "") :
    analyze_endpoint req c remote lp draw db s un mi =
      (.clientError "No selected file", noEffects) := by
  unfold analyze_endpoint
  rw [h]
  simp [hname]

theorem analyze_endpoint_bad_ext (req : AnalyzeRequest) (c : MLClient)
    (remote : RemoteOutcome) (lp : Option LocalMLResult) (draw : MockDraw)
    (db : DbResult) (s : Bool) (un mi : String) (f : UploadedFile)
    (h : req.audio = some f) (hname : f.filename ≠ "")
    (hext : allowed_file f.filename = false) :
    analyze_endpoint req c remote lp draw db s un mi =
      (.clientError "File type not allowed. Use WAV, MP3, or M4A", noEffects) := by
  unfold analyze_endpoint
  rw [h]
  have h1 : (f.filename == "") = false := beq_eq_false_iff_ne.mpr hname
  simp [h1, hext]

theorem analyze_endpoint_ml_error (req : AnalyzeRequest) (c : MLClient)
    (remote : RemoteOutcome) (lp : Option LocalMLResult) (draw : MockDraw)
    (db : DbResult) (s : Bool) (un mi : String) (f : UploadedFile) (e : String)
    (h : req.audio = some f) (hname : f.filename ≠ "")
    (hext : allowed_file f.filename = true)
    (hml : analyze_heart_sound c remote lp draw (some (build_patient_context req)) mi =
      .error e) :
    analyze_endpoint req c remote lp draw db s un mi =
      (.serverError e,
       { file_saved := true, ml_invoked := true, db_invoked := false,
         sms_attempts := 0 }) := by
  unfold analyze_endpoint
  rw [h]
  have h1 : (f.filename == "") = false := beq_eq_false_iff_ne.mpr hname
  simp [h1, hext, hml]

theorem analyze_endpoint_ok (req : AnalyzeRequest) (c : MLClient)
    (remote : RemoteOutcome) (lp : Option LocalMLResult) (draw : MockDraw)
    (db : DbResult) (s : Bool) (un mi : String) (f : UploadedFile) (m : ResultDict)
    (h : req.audio = some f) (hname : f.filename ≠ "")
    (hext : allowed_file f.filename = true)
    (hml : analyze_heart_sound c remote lp draw (some (build_patient_context req)) mi =
      .ok m) :
    analyze_endpoint req c remote lp draw db s un mi =
      (.ok { (alert_step m (build_patient_context req) s).1 with
              screening_id := some (db.id.getD "")
              audio_file := some un },
       { file_saved := true, ml_invoked := true, db_invoked := true,
         sms_attempts := (alert_step m (build_patient_context req) s).2 }) := by
  unfold analyze_endpoint
  rw [h]
  have h1 : (f.filename == "") = false := beq_eq_false_iff_ne.mpr hname
  simp [h1, hext, hml]

/-- C4: an SMS alert dispatch is attempted exactly when the risk level is
`high` and the context phone is present and non-empty; when attempted it
happens once and its delivery outcome is recorded in `sms_sent`; the alert
step never changes the returned label, confidence or risk tier; and the
delivery outcome never changes whether the request as a whole succeeds. -/
theorem claim4 (m : ResultDict) (ctx : PatientContext) (delivered : Bool)
    (req : AnalyzeRequest) (c : MLClient) (remote : RemoteOutcome)
    (lp : Option LocalMLResult) (draw : MockDraw) (db : DbResult) (un mi : String) :
    ((alert_step m ctx delivered).2 = 1 ↔
      (m.risk_level = some "high" ∧ strTruthy ctx.phone = true)) ∧
    ((alert_step m ctx delivered).2 = 0 ↔
      ¬(m.risk_level = some "high" ∧ strTruthy ctx.phone = true)) ∧
    (alert_step m ctx delivered).1.prediction = m.prediction ∧
    (alert_step m ctx delivered).1.confidence = m.confidence ∧
    (alert_step m ctx delivered).1.risk_level = m.risk_level ∧
    (m.risk_level = some "high" → strTruthy ctx.phone = true →
      (alert_step m ctx delivered).1.sms_sent = some delivered) ∧
    ((∃ b, (analyze_endpoint req c remote lp draw db true un mi).1 = .ok b) ↔
      (∃ b, (analyze_endpoint req c remote lp draw db false un mi).1 = .ok b)) := by
  have hp := alert_step_preserves m ctx delivered
  have hbeq : ((m.risk_level == some "high" && strTruthy ctx.phone) = true) ↔
      (m.risk_level = some "high" ∧ strTruthy ctx.phone = true) := by
    rw [Bool.and_eq_true, beq_iff_eq]
  refine ⟨?_, ?_, hp.1, hp.2.1, hp.2.2.1, ?_, ?_⟩
  · unfold alert_step
    split_ifs with h
    · simp only [hbeq] at h
      simp [h]
    · simp only [hbeq] at h
      simp [h]
  · unfold alert_step
    split_ifs with h
    · simp only [hbeq] at h
      simp [h]
    · simp only [hbeq] at h
      simp [h]
  · intro h1 h2
    unfold alert_step
    rw [if_pos (hbeq.mpr ⟨h1, h2⟩)]
  · cases haud : req.audio with
    | none =>
      rw [analyze_endpoint_no_audio req c remote lp draw db true un mi haud,
        analyze_endpoint_no_audio req c remote lp draw db false un mi haud]
    | some f =>
      by_cases hname : f.filename = ""
      · rw [analyze_endpoint_empty_name req c remote lp draw db true un mi f haud hname,
          analyze_endpoint_empty_name req c remote lp draw db false un mi f haud hname]
      · by_cases hext : allowed_file f.filename = true
        · cases hml : analyze_heart_sound c remote lp draw
            (some (build_patient_context req)) mi with
          | error e =>
            rw [analyze_endpoint_ml_error req c remote lp draw db true un mi f e
                haud hname hext hml,
              analyze_endpoint_ml_error req c remote lp draw db false un mi f e
                haud hname hext hml]
          | ok m2 =>
            rw [analyze_endpoint_ok req c remote lp draw db true un mi f m2
                haud hname hext hml,
              analyze_endpoint_ok req c remote lp draw db false un mi f m2
                haud hname hext hml]
            exact ⟨fun _ => ⟨_, rfl⟩, fun _ => ⟨_, rfl⟩⟩
        · have hext' : allowed_file f.filename = false := by
            simpa using hext
          rw [analyze_endpoint_bad_ext req c remote lp draw db true un mi f
              haud hname hext',
            analyze_endpoint_bad_ext req c remote lp draw db false un mi f
              haud hname hext']

/-- C4 witness: a high-risk result with a phone present dispatches exactly
one alert. -/
theorem claim4_witness :
    (alert_step { risk_level := some "high" } { phone := some "+15551234567" } true).2 = 1 :=
  (claim4 { risk_level := some "high" } { phone := some "+15551234567" } true
    { audio := none } ⟨false, "", false⟩ (RemoteOutcome.exception "x") none
    ⟨0, 4/5⟩ ⟨true, none⟩ "" "").1.mpr ⟨rfl, rfl⟩

/-- C8: a request with a missing audio artifact, an empty filename, or a
disallowed extension is rejected with a client error and no side effects:
no file stored, no classification invoked, no record persisted, no alert
dispatched. -/
theorem claim8 (req : AnalyzeRequest) (c : MLClient) (remote : RemoteOutcome)
    (lp : Option LocalMLResult) (draw : MockDraw) (db : DbResult) (s : Bool)
    (un mi : String) :
    (req.audio = none →
      analyze_endpoint req c remote lp draw db s un mi =
        (.clientError "No audio file provided", noEffects)) ∧
    (∀ f, req.audio = some f → f.filename = "" →
      analyze_endpoint req c remote lp draw db s un mi =
        (.clientError "No selected file", noEffects)) ∧
    (∀ f, req.audio = some f → f.filename ≠ "" → allowed_file f.filename = false →
      analyze_endpoint req c remote lp draw db s un mi =
        (.clientError "File type not allowed. Use WAV, MP3, or M4A", noEffects)) ∧
    noEffects.file_saved = false ∧ noEffects.ml_invoked = false ∧
    noEffects.db_invoked = false ∧ noEffects.sms_attempts = 0 := by
  refine ⟨?_, ?_, ?_, rfl, rfl, rfl, rfl⟩
  · exact analyze_endpoint_no_audio req c remote lp draw db s un mi
  · intro f hf hname
    exact analyze_endpoint_empty_name req c remote lp draw db s un mi f hf hname
  · intro f hf hname hext
    exact analyze_endpoint_bad_ext req c remote lp draw db s un mi f hf hname hext

/-- C8 witness: a `.pdf` upload is rejected with no side effects. -/
theorem claim8_witness :
    analyze_endpoint { audio := some ⟨"report.pdf"⟩ } ⟨false, "", false⟩
      (RemoteOutcome.exception "x") none ⟨0, 4/5⟩ ⟨true, none⟩ true "u" "m" =
      (.clientError "File type not allowed. Use WAV, MP3, or M4A", noEffects) :=
  (claim8 { audio := some ⟨"report.pdf"⟩ } ⟨false, "", false⟩
    (RemoteOutcome.exception "x") none ⟨0, 4/5⟩ ⟨true, none⟩ true "u" "m").2.2.1
    ⟨"report.pdf"⟩ rfl (by decide) (by decide)

/-- C9: when the persistence write fails (its result dict has
`success = False` and carries no id), the screening response is still
returned successfully with the classification fields intact, and the
failure surfaces only as the degraded empty screening identifier. -/
theorem claim9 (req : AnalyzeRequest) (f : UploadedFile) (c : MLClient)
    (remote : RemoteOutcome) (lp : Option LocalMLResult) (draw : MockDraw)
    (connected : Bool) (oc : InsertOutcome) (s : Bool) (un mi : String)
    (m : ResultDict) (haudio : req.audio = some f) (hname : f.filename ≠ "")
    (hext : allowed_file f.filename = true)
    (hml : analyze_heart_sound c remote lp draw (some (build_patient_context req)) mi =
      .ok m)
    (hfail : (save_screening_result connected oc).success = false) :
    ∃ body,
      (analyze_endpoint req c remote lp draw (save_screening_result connected oc)
        s un mi).1 = .ok body ∧
      body.screening_id = some "" ∧
      body.prediction = m.prediction ∧ body.confidence = m.confidence ∧
      body.risk_level = m.risk_level ∧ body.recommendation = m.recommendation := by
  have hid := save_fail_id_none connected oc hfail
  have hp := alert_step_preserves m (build_patient_context req) s
  rw [analyze_endpoint_ok req c remote lp draw (save_screening_result connected oc)
    s un mi f m haudio hname hext hml]
  refine ⟨_, rfl, ?_, hp.1, hp.2.1, hp.2.2.1, hp.2.2.2⟩
  rw [show (save_screening_result connected oc).id = none from hid]
  rfl

/-- C9 witness: a failed Supabase insert still yields an `ok` response with
an empty screening id, on the mock classification path. -/
theorem claim9_witness :
    ∃ body,
      (analyze_endpoint { audio := some ⟨"heart.wav"⟩ } ⟨false, "", false⟩
        (RemoteOutcome.exception "x") none ⟨0, 4/5⟩
        (save_screening_result true InsertOutcome.noData) false "u" "m").1 =
        .ok body ∧ body.screening_id = some "" := by
  obtain ⟨body, h1, h2, _⟩ :=
    claim9 { audio := some ⟨"heart.wav"⟩ } ⟨"heart.wav"⟩ ⟨false, "", false⟩
      (RemoteOutcome.exception "x") none ⟨0, 4/5⟩ true InsertOutcome.noData false
      "u" "m"
      (mock_analysis ⟨0, 4/5⟩ (some (build_patient_context { audio := some ⟨"heart.wav"⟩ })))
      rfl (by decide) (by decide) rfl rfl
  exact ⟨body, h1, h2⟩

/-- C10: the `/analyze` handler builds a patient context without a phone
entry whatever form fields were submitted, so (as long as the remote body
does not itself smuggle an `sms_sent` key) no SMS alert is ever attempted
from this endpoint and the response never carries an `sms_sent` flag. -/
theorem claim10 (req : AnalyzeRequest) (c : MLClient) (remote : RemoteOutcome)
    (lp : Option LocalMLResult) (draw : MockDraw) (db : DbResult) (s : Bool)
    (un mi : String)
    (hremote : ∀ st body, remote = RemoteOutcome.response st body →
      body.sms_sent = none) :
    (build_patient_context req).phone = none ∧
    (analyze_endpoint req c remote lp draw db s un mi).2.sms_attempts = 0 ∧
    (∀ body, (analyze_endpoint req c remote lp draw db s un mi).1 = .ok body →
      body.sms_sent = none) := by
  refine ⟨rfl, ?_, ?_⟩
  · cases haud : req.audio with
    | none =>
      rw [analyze_endpoint_no_audio req c remote lp draw db s un mi haud]
      rfl
    | some f =>
      by_cases hname : f.filename = ""
      · rw [analyze_endpoint_empty_name req c remote lp draw db s un mi f haud hname]
        rfl
      · by_cases hext : allowed_file f.filename = true
        · cases hml : analyze_heart_sound c remote lp draw
            (some (build_patient_context req)) mi with
          | error e =>
            rw [analyze_endpoint_ml_error req c remote lp draw db s un mi f e
              haud hname hext hml]
          | ok m =>
            rw [analyze_endpoint_ok req c remote lp draw db s un mi f m
              haud hname hext hml]
            show (alert_step m (build_patient_context req) s).2 = 0
            unfold alert_step
            have hph : strTruthy (build_patient_context req).phone = false := rfl
            rw [hph, Bool.and_false, if_neg (by simp)]
        · have hext' : allowed_file f.filename = false := by simpa using hext
          rw [analyze_endpoint_bad_ext req c remote lp draw db s un mi f
            haud hname hext']
          rfl
  · intro body hbody
    cases haud : req.audio with
    | none =>
      rw [analyze_endpoint_no_audio req c remote lp draw db s un mi haud] at hbody
      exact absurd hbody (by simp)
    | some f =>
      by_cases hname : f.filename = ""
      · rw [analyze_endpoint_empty_name req c remote lp draw db s un mi f
          haud hname] at hbody
        exact absurd hbody (by simp)
      · by_cases hext : allowed_file f.filename = true
        · cases hml : analyze_heart_sound c remote lp draw
            (some (build_patient_context req)) mi with
          | error e =>
            rw [analyze_endpoint_ml_error req c remote lp draw db s un mi f e
              haud hname hext hml] at hbody
            exact absurd hbody (by simp)
          | ok m =>
            rw [analyze_endpoint_ok req c remote lp draw db s un mi f m
              haud hname hext hml] at hbody
            have hms : m.sms_sent = none :=
              analyze_ok_sms_none c remote lp draw (some (build_patient_context req))
                mi m hremote hml
            injection hbody with e
            subst e
            show (alert_step m (build_patient_context req) s).1.sms_sent = none
            unfold alert_step
            have hph : strTruthy (build_patient_context req).phone = false := rfl
            rw [hph, Bool.and_false, if_neg (by simp)]
            exact hms
        · have hext' : allowed_file f.filename = false := by simpa using hext
          rw [analyze_endpoint_bad_ext req c remote lp draw db s un mi f
            haud hname hext'] at hbody
          exact absurd hbody (by simp)

/-- C10 witness: even with a phone form field submitted, the mock-path
response has no `sms_sent` entry and no alert attempt. -/
theorem claim10_witness :
    (analyze_endpoint
      { audio := some ⟨"heart.wav"⟩, phone_field := some "+15551234567" }
      ⟨false, "", false⟩ (RemoteOutcome.exception "x") none ⟨0, 4/5⟩ ⟨true, none⟩
      true "u" "m").2.sms_attempts = 0 :=
  (claim10 { audio := some ⟨"heart.wav"⟩, phone_field := some "+15551234567" }
    ⟨false, "", false⟩ (RemoteOutcome.exception "x") none ⟨0, 4/5⟩ ⟨true, none⟩
    true "u" "m" (fun st body h => by injection h)).2.1
